import Mathlib

/-!
Verification development for the Cartesia voice-agent glue code
(`agent/main.py`).  The Python module wires third-party adapters into a
pipeline agent; the logic of its own that we embed here is:

* `prewarm`: two HTTP fetches whose results are stored in process-shared
  user data under the keys `"cartesia_voices"` and `"knowledge_base"`;
* `entrypoint`: the per-session orchestration — reading the user data
  (`.get` with a default for the knowledge base, a plain indexing
  operation for the voice catalog), speaking a first greeting built from
  the knowledge base, publishing the sorted reduced voice list as a JSON
  attribute, and speaking the generic greeting a second time;
* `on_participant_attributes_changed`: the voice-change event handler.

Stateful effects (logging, task scheduling, mutation of the synthesis
adapter options) are made explicit: the handler returns the new options
together with the lists of info logs, warnings and scheduled utterances;
`entrypoint` returns `none` where the Python raises (the `KeyError` on a
missing `"cartesia_voices"` key, and type errors while formatting the
services greeting), and otherwise the list of greetings it awaited plus
the published attribute value.
-/

namespace VoiceAgent

/-- JSON values, the shape of the fetched voice-catalog and knowledge-base
documents.  Numbers are modelled as integers; no claim inspects a numeric
field. -/
inductive Json where
  | null
  | bool (b : Bool)
  | num (n : Int)
  | str (s : String)
  | arr (items : List Json)
  | obj (fields : List (String × Json))

/-- Python truthiness (`if knowledge_base:` on line 107): empty containers,
empty strings, zero, `False` and `None` are falsy. -/
def jsonTruthy : Json → Bool
  | .null => false
  | .bool b => b
  | .num n => n != 0
  | .str s => s != ""
  | .arr items => !items.isEmpty
  | .obj fields => !fields.isEmpty

/-- Python `d.get(key, default)` (line 108): defined only on dicts; on any
other value the attribute access raises (`none`). -/
def dictGet : Json → String → Json → Option Json
  | .obj fields, key, dflt => some ((fields.lookup key).getD dflt)
  | _, _, _ => none

/-- Python iteration over the `services` value (the generator on line 109):
lists yield their items, strings their one-character substrings, dicts
their keys; other values raise a `TypeError` (`none`). -/
def pyIter : Json → Option (List Json)
  | .arr items => some items
  | .str s => some (s.toList.map (fun c => .str (String.singleton c)))
  | .obj fields => some (fields.map (fun p => .str p.1))
  | _ => none

/-- `service["name"]` followed by `", ".join(...)` (line 109): the element
must be a dict whose `"name"` field is a string; anything else raises a
`KeyError` or `TypeError` (`none`). -/
def serviceName : Json → Option String
  | .obj fields =>
    match fields.lookup "name" with
    | some (.str s) => some s
    | _ => none
  | _ => none

/-- The generic greeting spoken on lines 112 and 181. -/
def genericGreeting : String := "Hi there, how are you doing today?"

/-- Text of the services greeting (line 110) before the joined names. -/
def servicesGreetingPre : String :=
  "Hi there! I\x27m Alex, your Aitek PH assistant. Here to help you with services like "

/-- Text of the services greeting (line 110) after the joined names. -/
def servicesGreetingPost : String := ". How can I assist you today?"

/-- Extraction of every service name in order; `none` as soon as one
element raises (the generator of line 109 is consumed eagerly by
`str.join`). -/
def serviceNames : List Json → Option (List String)
  | [] => some []
  | s :: rest =>
    match serviceName s, serviceNames rest with
    | some n, some ns => some (n :: ns)
    | _, _ => none

/-- Lines 107-112: the first greeting.  A truthy knowledge base yields the
services greeting built from the comma-joined service names; a falsy one
yields the generic greeting.  `none` models an exception while extracting
the names. -/
def firstGreeting (knowledge_base : Json) : Option String :=
  if jsonTruthy knowledge_base then
    match dictGet knowledge_base "services" (.arr []) with
    | none => none
    | some services =>
      match pyIter services with
      | none => none
      | some items =>
        match serviceNames items with
        | none => none
        | some names =>
          some (servicesGreetingPre ++ String.intercalate ", " names ++ servicesGreetingPost)
  else
    some genericGreeting

/-- One entry of the fetched voice catalog.  Per the catalog interface the
fields `id` and `name` are strings, `embedding` (an arbitrary JSON value,
a vector in practice) and `language` (a string) are optional; `option`
models the Python `"embedding" in voice_data` / `"language" in voice_data`
membership tests. -/
structure Voice where
  id : String
  name : String
  embedding : Option Json
  language : Option String

/-- The `voice` field of the synthesis options: the initial preset voice id
(line 96) or an embedding copied from a catalog entry (line 146). -/
inductive VoiceSetting where
  | preset (id : String)
  | embedding (e : Json)

/-- The mutable synthesis-adapter options `tts._opts` (lines 146-148). -/
structure TTSOpts where
  voice : VoiceSetting
  model : String
  language : String

/-- Participant kinds of the room protocol; the handler acts only on
`standard` participants (line 123). -/
inductive ParticipantKind where
  | standard
  | agent
  | ingress
  | egress
  | sip
deriving DecidableEq

/-- The originating participant of an attribute-change event. -/
structure Participant where
  kind : ParticipantKind
  identity : String
  attributes : List (String × String)

/-- Observable outcome of one run of the attribute-change handler: the
synthesis options after the run, and the info logs, warnings and
asynchronously scheduled utterances it produced. -/
structure HandlerResult where
  opts : TTSOpts
  infoLogs : List String
  warnings : List String
  scheduled : List String

/-- The confirmation utterance scheduled on line 151. -/
def confirmationUtterance : String := "How do I sound now?"

/-- Python string interpolation of an optional value (`f"... {voice_id}"`
on line 129 where `voice_id` may be `None`). -/
def pyShowOpt : Option String → String
  | none => "None"
  | some s => s

/-- Lines 119-152: the `participant_attributes_changed` handler.  Inputs
are the closed-over voice catalog, the two speaking-state flags, the
current synthesis options, and the event payload.  Mirrors the source:
non-standard participants are ignored; with a `"voice"` key among the
changed attributes the requested id is read from the participant's
current attributes and logged; a falsy id returns; an id absent from the
catalog logs a warning; a catalog entry without an `"embedding"` field
does nothing further; otherwise the options are rewritten (model and
language from the entry's `language` field) and, when neither flag is
set, the confirmation utterance is scheduled. -/
def on_participant_attributes_changed
    (cartesia_voices : List Voice) (is_user_speaking is_agent_speaking : Bool)
    (tts : TTSOpts) (changed_attributes : List (String × String))
    (participant : Participant) : HandlerResult :=
  if participant.kind ≠ ParticipantKind.standard then
    ⟨tts, [], [], []⟩
  else if (changed_attributes.lookup "voice").isSome then
    let voice_id := participant.attributes.lookup "voice"
    let infoMsg :=
      "participant " ++ participant.identity ++ " requested voice change: " ++
        pyShowOpt voice_id
    match voice_id with
    | none => ⟨tts, [infoMsg], [], []⟩
    | some vid =>
      if vid = "" then ⟨tts, [infoMsg], [], []⟩
      else
        match cartesia_voices.find? (fun voice => voice.id == vid) with
        | none => ⟨tts, [infoMsg], ["Voice " ++ vid ++ " not found"], []⟩
        | some voice_data =>
          match voice_data.embedding with
          | none => ⟨tts, [infoMsg], [], []⟩
          | some emb =>
            let pair : String × String :=
              match voice_data.language with
              | some lang =>
                if lang ≠ "en" then ("sonic-multilingual", lang)
                else ("sonic-english", "en")
              | none => ("sonic-english", "en")
            let newOpts : TTSOpts := ⟨VoiceSetting.embedding emb, pair.1, pair.2⟩
            if !(is_agent_speaking || is_user_speaking) then
              ⟨newOpts, [infoMsg], [], [confirmationUtterance]⟩
            else
              ⟨newOpts, [infoMsg], [], []⟩
  else
    ⟨tts, [], [], []⟩

/-- The process-shared user data written by `prewarm`: the keys `"vad"`,
`"cartesia_voices"` and `"knowledge_base"`; `none` models an absent key. -/
structure UserData where
  vad : Bool
  cartesia_voices : Option (List Voice)
  knowledge_base : Option Json

/-- Lines 22-46: `prewarm`.  Parameters stand for the outcomes of the two
HTTP fetches: the voice-catalog response status and (parsed) body, and
the knowledge-base fetch result (`Except.error` models a
`requests.RequestException`, raised by the request itself or by
`raise_for_status`).  Returns the populated user data and the warnings
logged.  The catalog body is stored exactly on status 200; the knowledge
base exactly on a non-raising fetch. -/
def prewarm (voices_status : Nat) (voices_body : List Voice)
    (kb_result : Except String Json) : UserData × List String :=
  let cartesia : Option (List Voice) :=
    if voices_status = 200 then some voices_body else none
  let warns1 : List String :=
    if voices_status = 200 then []
    else ["Failed to fetch Cartesia voices: " ++ toString voices_status]
  match kb_result with
  | .ok j => (⟨true, cartesia, some j⟩, warns1)
  | .error e => (⟨true, cartesia, none⟩, warns1 ++ ["Failed to load knowledge base: " ++ e])

/-- Ordering of the reduced voice entries used by `voices.sort(key=lambda
x: x["name"])` on line 177: by display name. -/
def nameLe (a b : String × String) : Prop := a.2 ≤ b.2

instance : DecidableRel nameLe := fun a b => String.decidableLE a.2 b.2

instance : IsTotal (String × String) nameLe := ⟨fun a b => le_total a.2 b.2⟩

instance : IsTrans (String × String) nameLe := ⟨fun _ _ _ h1 h2 => le_trans h1 h2⟩

/-- Line 176: the reduced voice list, an `(id, name)` pair per catalog
entry, in catalog order. -/
def reducedVoiceList (cartesia_voices : List Voice) : List (String × String) :=
  cartesia_voices.map (fun voice => (voice.id, voice.name))

/-- Line 177: the reduced voice list sorted stably by name (Python's
`list.sort` is stable; a stable sort by a key is unique, so insertion
sort embeds it faithfully). -/
def sortedVoiceList (cartesia_voices : List Voice) : List (String × String) :=
  List.insertionSort nameLe (reducedVoiceList cartesia_voices)

/-- One hexadecimal digit, lowercase, as produced by `json.dumps` escapes. -/
def hexDigit (n : Nat) : Char :=
  if n < 10 then Char.ofNat (48 + n) else Char.ofNat (87 + n)

/-- Four-digit lowercase hexadecimal, as in the `\uXXXX` escapes of
`json.dumps`. -/
def hex4 (n : Nat) : String :=
  String.mk [hexDigit (n / 4096 % 16), hexDigit (n / 256 % 16),
    hexDigit (n / 16 % 16), hexDigit (n % 16)]

/-- Escaping of one character under `json.dumps` defaults (`ensure_ascii`
true): the two-character escapes for quote, backslash and the common
control characters, `\uXXXX` for other control and all non-ASCII
characters, surrogate pairs beyond the basic plane. -/
def jsonEscapeChar (c : Char) : String :=
  if c = Char.ofNat 34 then "\\\""
  else if c = Char.ofNat 92 then "\\\\"
  else if c = Char.ofNat 10 then "\\n"
  else if c = Char.ofNat 9 then "\\t"
  else if c = Char.ofNat 13 then "\\r"
  else if c = Char.ofNat 8 then "\\b"
  else if c = Char.ofNat 12 then "\\f"
  else if c.toNat < 32 then "\\u" ++ hex4 c.toNat
  else if c.toNat ≤ 126 then String.singleton c
  else if c.toNat ≤ 65535 then "\\u" ++ hex4 c.toNat
  else
    "\\u" ++ hex4 (55296 + (c.toNat - 65536) / 1024) ++
      "\\u" ++ hex4 (56320 + (c.toNat - 65536) % 1024)

/-- A JSON string literal under `json.dumps` defaults. -/
def jsonQuote (s : String) : String :=
  "\"" ++ String.join (s.toList.map jsonEscapeChar) ++ "\""

/-- `json.dumps` of one reduced entry `{"id": ..., "name": ...}` with the
default separators. -/
def dumpVoiceEntry (v : String × String) : String :=
  "\x7b\"id\": " ++ jsonQuote v.1 ++ ", \"name\": " ++ jsonQuote v.2 ++ "\x7d"

/-- `json.dumps` of the reduced voice list (line 178). -/
def jsonDumpsVoiceList (vs : List (String × String)) : String :=
  "[" ++ String.intercalate ", " (vs.map dumpVoiceEntry) ++ "]"

/-- Lines 176-178: the value published under the participant attribute
`"voices"`. -/
def voicesAttrValue (cartesia_voices : List Voice) : String :=
  jsonDumpsVoiceList (sortedVoiceList cartesia_voices)

/-- Observable outcome of a session start: the greetings `entrypoint`
itself awaited, in order, and the published `"voices"` attribute value. -/
structure SessionResult where
  greetings : List String
  voicesAttr : String

/-- Lines 49-181: the per-session `entrypoint`, as a function of the
process-shared user data.  `ctx.proc.userdata.get("knowledge_base", {})`
defaults an absent key to the empty dict; `ctx.proc.userdata["cartesia_voices"]`
raises a `KeyError` on an absent key (`none`).  The source performs the
knowledge-base read (line 92) just before the catalog read (line 93);
since the defaulted `.get` cannot fault, folding it into the success
branch is observationally equal.  The session then speaks the first
greeting, publishes the sorted reduced voice list, and speaks the
generic greeting a second time. -/
def entrypoint (userdata : UserData) : Option SessionResult :=
  match userdata.cartesia_voices with
  | none => none
  | some cartesia_voices =>
    match firstGreeting (userdata.knowledge_base.getD (Json.obj [])) with
    | none => none
    | some greeting =>
      some ⟨[greeting, genericGreeting], voicesAttrValue cartesia_voices⟩


/-- Claim C1: at session start the two user-data reads are asymmetric: an
absent `"cartesia_voices"` key makes `entrypoint` fail with a lookup
fault, while an absent `"knowledge_base"` key lets the session proceed
with the empty mapping (so the first greeting is the generic one). -/
theorem entrypoint_userdata_read_asymmetry :
    (∀ ud : UserData, ud.cartesia_voices = none → entrypoint ud = none) ∧
    (∀ (catalog : List Voice) (ud : UserData), ud.cartesia_voices = some catalog →
      ud.knowledge_base = none →
      entrypoint ud = some ⟨[genericGreeting, genericGreeting], voicesAttrValue catalog⟩) := by
  constructor
  · intro ud h
    simp [entrypoint, h]
  · intro catalog ud h1 h2
    simp [entrypoint, h1, h2, firstGreeting, jsonTruthy]

/-- Witness for `entrypoint_userdata_read_asymmetry` at concrete user
data: missing catalog key faults, missing knowledge-base key defaults. -/
theorem entrypoint_userdata_read_asymmetry_witness :
    entrypoint ⟨true, none, none⟩ = none ∧
    entrypoint ⟨true, some [], none⟩ =
      some ⟨[genericGreeting, genericGreeting], voicesAttrValue []⟩ :=
  ⟨entrypoint_userdata_read_asymmetry.1 ⟨true, none, none⟩ rfl,
   entrypoint_userdata_read_asymmetry.2 [] ⟨true, some [], none⟩ rfl rfl⟩

/-- Claim C3: when the requested (non-empty) identifier matches no catalog
entry, the handler leaves the synthesis options unchanged, logs exactly
the not-found warning, and schedules nothing. -/
theorem voice_change_unknown_id (catalog : List Voice) (u a : Bool) (tts : TTSOpts)
    (changed : List (String × String)) (p : Participant) (vid : String)
    (hk : p.kind = ParticipantKind.standard)
    (hc : (changed.lookup "voice").isSome = true)
    (hv : p.attributes.lookup "voice" = some vid)
    (hne : vid ≠ "")
    (hnf : ∀ v ∈ catalog, v.id ≠ vid) :
    (on_participant_attributes_changed catalog u a tts changed p).opts = tts ∧
    (on_participant_attributes_changed catalog u a tts changed p).warnings =
      ["Voice " ++ vid ++ " not found"] ∧
    (on_participant_attributes_changed catalog u a tts changed p).scheduled = [] := by
  have hfind : catalog.find? (fun voice => voice.id == vid) = none := by
    rw [List.find?_eq_none]
    intro v hvmem
    simp [hnf v hvmem]
  simp [on_participant_attributes_changed, hk, hc, hv, hne, hfind]

/-- Witness for `voice_change_unknown_id`: a one-entry catalog and a
request for an identifier not in it. -/
theorem voice_change_unknown_id_witness :
    (on_participant_attributes_changed [⟨"v1", "A", none, none⟩] false false
      ⟨VoiceSetting.preset "x", "sonic-english", "en"⟩ [("voice", "v2")]
      ⟨ParticipantKind.standard, "u", [("voice", "v2")]⟩).opts =
      ⟨VoiceSetting.preset "x", "sonic-english", "en"⟩ ∧
    (on_participant_attributes_changed [⟨"v1", "A", none, none⟩] false false
      ⟨VoiceSetting.preset "x", "sonic-english", "en"⟩ [("voice", "v2")]
      ⟨ParticipantKind.standard, "u", [("voice", "v2")]⟩).warnings =
      ["Voice v2 not found"] ∧
    (on_participant_attributes_changed [⟨"v1", "A", none, none⟩] false false
      ⟨VoiceSetting.preset "x", "sonic-english", "en"⟩ [("voice", "v2")]
      ⟨ParticipantKind.standard, "u", [("voice", "v2")]⟩).scheduled = [] :=
  voice_change_unknown_id [⟨"v1", "A", none, none⟩] false false
    ⟨VoiceSetting.preset "x", "sonic-english", "en"⟩ [("voice", "v2")]
    ⟨ParticipantKind.standard, "u", [("voice", "v2")]⟩ "v2" rfl rfl rfl
    (by decide) (by intro v hv; simp at hv; simp [hv])

/-- Claim C4: a falsy (empty or absent) knowledge base yields exactly the
generic greeting; a non-empty one whose `services` list extracts to a
list of names yields a greeting containing the comma-joined names in
catalog order. -/
theorem first_greeting_spec :
    (∀ kb : Json, jsonTruthy kb = false → firstGreeting kb = some genericGreeting) ∧
    (∀ (fields : List (String × Json)) (items : List Json) (names : List String),
      fields ≠ [] →
      fields.lookup "services" = some (Json.arr items) →
      serviceNames items = some names →
      ∃ pre post, firstGreeting (Json.obj fields) =
        some (pre ++ String.intercalate ", " names ++ post)) := by
  constructor
  · intro kb h
    simp [firstGreeting, h]
  · intro fields items names hne hs hn
    refine ⟨servicesGreetingPre, servicesGreetingPost, ?_⟩
    have htr : jsonTruthy (Json.obj fields) = true := by
      cases fields with
      | nil => exact absurd rfl hne
      | cons f fs => simp [jsonTruthy]
    simp [firstGreeting, htr, dictGet, hs, pyIter, hn]

/-- Witness for `first_greeting_spec`: the empty knowledge base, and one
with two named services. -/
theorem first_greeting_spec_witness :
    firstGreeting (Json.obj []) = some genericGreeting ∧
    ∃ pre post,
      firstGreeting (Json.obj [("services", Json.arr
          [Json.obj [("name", Json.str "Web")], Json.obj [("name", Json.str "Auto")]])]) =
        some (pre ++ String.intercalate ", " ["Web", "Auto"] ++ post) :=
  ⟨first_greeting_spec.1 (Json.obj []) rfl,
   first_greeting_spec.2 [("services", Json.arr
       [Json.obj [("name", Json.str "Web")], Json.obj [("name", Json.str "Auto")]])]
     [Json.obj [("name", Json.str "Web")], Json.obj [("name", Json.str "Auto")]]
     ["Web", "Auto"] (by simp) rfl rfl⟩

/-- Claim C6: the published `"voices"` attribute is the JSON dump of the
reduced `(id, name)` list sorted by name — a permutation of the reduced
catalog, sorted under `nameLe` — and rebuilding it from the same catalog
is byte-identical (the builder is a pure function of the catalog). -/
theorem voices_attribute_sorted_stable (catalog : List Voice) :
    voicesAttrValue catalog = jsonDumpsVoiceList (sortedVoiceList catalog) ∧
    (sortedVoiceList catalog).Perm (reducedVoiceList catalog) ∧
    List.Sorted nameLe (sortedVoiceList catalog) ∧
    voicesAttrValue catalog = voicesAttrValue catalog :=
  ⟨rfl, List.perm_insertionSort nameLe (reducedVoiceList catalog),
   List.sorted_insertionSort nameLe (reducedVoiceList catalog), rfl⟩

/-- Claim C7: `prewarm` stores the parsed catalog body under
`"cartesia_voices"` exactly on HTTP status 200 and warns otherwise, and
stores the knowledge base exactly when its fetch does not raise, warning
on failure. -/
theorem prewarm_storage (voices_status : Nat) (voices_body : List Voice)
    (kb_result : Except String Json) :
    ((prewarm voices_status voices_body kb_result).1.cartesia_voices =
      if voices_status = 200 then some voices_body else none) ∧
    (voices_status ≠ 200 →
      ("Failed to fetch Cartesia voices: " ++ toString voices_status) ∈
        (prewarm voices_status voices_body kb_result).2) ∧
    ((prewarm voices_status voices_body kb_result).1.knowledge_base =
      match kb_result with
      | .ok j => some j
      | .error _ => none) ∧
    (∀ e, kb_result = .error e →
      ("Failed to load knowledge base: " ++ e) ∈
        (prewarm voices_status voices_body kb_result).2) := by
  refine ⟨?_, ?_, ?_, ?_⟩
  · cases kb_result <;> simp [prewarm]
  · intro hne
    cases kb_result <;> simp [prewarm, hne]
  · cases kb_result <;> simp [prewarm]
  · intro e he
    subst he
    simp [prewarm]

/-- Witness for `prewarm_storage`: status 503 and a raising knowledge-base
fetch leave both keys unset and log both warnings. -/
theorem prewarm_storage_witness :
    (prewarm 503 [] (Except.error "boom")).1.cartesia_voices = none ∧
    "Failed to fetch Cartesia voices: 503" ∈ (prewarm 503 [] (Except.error "boom")).2 ∧
    (prewarm 503 [] (Except.error "boom")).1.knowledge_base = none ∧
    "Failed to load knowledge base: boom" ∈ (prewarm 503 [] (Except.error "boom")).2 := by
  have h := prewarm_storage 503 [] (Except.error "boom")
  refine ⟨?_, h.2.1 (by decide), ?_, h.2.2.2 "boom" rfl⟩
  · rw [h.1]
    exact if_neg (by decide)
  · rw [h.2.2.1]

/-- Claim C8: whenever `entrypoint` completes, the greetings it awaited
are some first greeting followed by the generic greeting — the second,
unconditional generic greeting of line 181. -/
theorem second_greeting_unconditional (ud : UserData) (r : SessionResult)
    (h : entrypoint ud = some r) :
    ∃ g, r.greetings = [g, genericGreeting] := by
  unfold entrypoint at h
  rcases hcv : ud.cartesia_voices with _ | catalog
  · rw [hcv] at h
    simp at h
  · rw [hcv] at h
    rcases hg : firstGreeting (ud.knowledge_base.getD (Json.obj [])) with _ | g
    · rw [hg] at h
      simp at h
    · rw [hg] at h
      simp at h
      exact ⟨g, by rw [← h]⟩

/-- Witness for `second_greeting_unconditional` at concrete user data. -/
theorem second_greeting_unconditional_witness :
    ∃ g, (SessionResult.mk [genericGreeting, genericGreeting] (voicesAttrValue [])).greetings =
      [g, genericGreeting] :=
  second_greeting_unconditional ⟨true, some [], none⟩
    ⟨[genericGreeting, genericGreeting], voicesAttrValue []⟩ rfl


/-- Claim C2 counterexample: a catalog entry with `language` present and
not `"en"` but without an `"embedding"` field.  The claim as stated
demands model `"sonic-multilingual"` and language `"fr"` for it, but the
handler leaves the options untouched. -/
theorem voice_change_language_claim_false :
    ¬ ((on_participant_attributes_changed [⟨"v1", "A", none, some "fr"⟩] false false
          ⟨VoiceSetting.preset "x", "sonic-english", "en"⟩ [("voice", "v1")]
          ⟨ParticipantKind.standard, "u", [("voice", "v1")]⟩).opts.model =
        "sonic-multilingual" ∧
       (on_participant_attributes_changed [⟨"v1", "A", none, some "fr"⟩] false false
          ⟨VoiceSetting.preset "x", "sonic-english", "en"⟩ [("voice", "v1")]
          ⟨ParticipantKind.standard, "u", [("voice", "v1")]⟩).opts.language = "fr") := by
  decide

/-- Claim C2 (amended): for every catalog entry selected by the handler
that has an `"embedding"` field: if its `language` equals `"en"` or is
absent the options become model `"sonic-english"`, language `"en"`; if
its `language` is present and not `"en"` they become model
`"sonic-multilingual"` with that language — in both cases with the
entry's embedding as voice. -/
theorem voice_change_model_language (catalog : List Voice) (u a : Bool) (tts : TTSOpts)
    (changed : List (String × String)) (p : Participant) (vid : String)
    (v : Voice) (emb : Json)
    (hk : p.kind = ParticipantKind.standard)
    (hc : (changed.lookup "voice").isSome = true)
    (hv : p.attributes.lookup "voice" = some vid)
    (hne : vid ≠ "")
    (hf : catalog.find? (fun voice => voice.id == vid) = some v)
    (he : v.embedding = some emb) :
    ((v.language = none ∨ v.language = some "en") →
      (on_participant_attributes_changed catalog u a tts changed p).opts =
        ⟨VoiceSetting.embedding emb, "sonic-english", "en"⟩) ∧
    (∀ lang, v.language = some lang → lang ≠ "en" →
      (on_participant_attributes_changed catalog u a tts changed p).opts =
        ⟨VoiceSetting.embedding emb, "sonic-multilingual", lang⟩) := by
  constructor
  · intro hl
    rcases hl with hl | hl <;>
      cases a <;> cases u <;>
        simp [on_participant_attributes_changed, hk, hc, hv, hne, hf, he, hl]
  · intro lang hl hns
    cases a <;> cases u <;>
      simp [on_participant_attributes_changed, hk, hc, hv, hne, hf, he, hl, hns]

/-- Witness for `voice_change_model_language`: an English entry and a
Tagalog entry, each carrying an embedding. -/
theorem voice_change_model_language_witness :
    (on_participant_attributes_changed [⟨"v1", "A", some (Json.arr []), none⟩] false false
      ⟨VoiceSetting.preset "x", "m", "l"⟩ [("voice", "v1")]
      ⟨ParticipantKind.standard, "u", [("voice", "v1")]⟩).opts =
      ⟨VoiceSetting.embedding (Json.arr []), "sonic-english", "en"⟩ ∧
    (on_participant_attributes_changed [⟨"v2", "B", some (Json.arr []), some "tl"⟩] false false
      ⟨VoiceSetting.preset "x", "m", "l"⟩ [("voice", "v2")]
      ⟨ParticipantKind.standard, "u", [("voice", "v2")]⟩).opts =
      ⟨VoiceSetting.embedding (Json.arr []), "sonic-multilingual", "tl"⟩ :=
  ⟨(voice_change_model_language [⟨"v1", "A", some (Json.arr []), none⟩] false false
      ⟨VoiceSetting.preset "x", "m", "l"⟩ [("voice", "v1")]
      ⟨ParticipantKind.standard, "u", [("voice", "v1")]⟩ "v1"
      ⟨"v1", "A", some (Json.arr []), none⟩ (Json.arr [])
      rfl rfl rfl (by decide) rfl rfl).1 (Or.inl rfl),
   (voice_change_model_language [⟨"v2", "B", some (Json.arr []), some "tl"⟩] false false
      ⟨VoiceSetting.preset "x", "m", "l"⟩ [("voice", "v2")]
      ⟨ParticipantKind.standard, "u", [("voice", "v2")]⟩ "v2"
      ⟨"v2", "B", some (Json.arr []), some "tl"⟩ (Json.arr [])
      rfl rfl rfl (by decide) rfl rfl).2 "tl" rfl (by decide)⟩

/-- Claim C5: the confirmation utterance is scheduled only when a catalog
entry with an embedding was found and applied and neither speaking flag
is set; whenever either flag is set nothing is scheduled. -/
theorem confirmation_only_when_idle (catalog : List Voice) (u a : Bool) (tts : TTSOpts)
    (changed : List (String × String)) (p : Participant)
    (hs : (on_participant_attributes_changed catalog u a tts changed p).scheduled ≠ []) :
    u = false ∧ a = false ∧
    (on_participant_attributes_changed catalog u a tts changed p).scheduled =
      [confirmationUtterance] ∧
    ∃ vid v emb,
      p.attributes.lookup "voice" = some vid ∧
      catalog.find? (fun voice => voice.id == vid) = some v ∧
      v.embedding = some emb ∧
      (on_participant_attributes_changed catalog u a tts changed p).opts.voice =
        VoiceSetting.embedding emb := by
  by_cases hk : p.kind = ParticipantKind.standard
  · by_cases hc : (changed.lookup "voice").isSome
    · rcases hv : p.attributes.lookup "voice" with _ | vid
      · simp [on_participant_attributes_changed, hk, hc, hv] at hs
      · by_cases hvid : vid = ""
        · simp [on_participant_attributes_changed, hk, hc, hv, hvid] at hs
        · rcases hf : catalog.find? (fun voice : Voice => voice.id == vid) with _ | v
          · simp [on_participant_attributes_changed, hk, hc, hv, hvid, hf] at hs
          · rcases he : v.embedding with _ | emb
            · simp [on_participant_attributes_changed, hk, hc, hv, hvid, hf, he] at hs
            · cases a <;> cases u
              · refine ⟨rfl, rfl, ?_, vid, v, emb, ?_, ?_, ?_, ?_⟩ <;>
                  simp [on_participant_attributes_changed, hk, hc, hv, hvid, hf, he]
              all_goals
                simp [on_participant_attributes_changed, hk, hc, hv, hvid, hf, he] at hs
    · simp [on_participant_attributes_changed, hk, hc] at hs
  · simp [on_participant_attributes_changed, hk] at hs

/-- Witness for `confirmation_only_when_idle`: both flags clear and a
matching entry with an embedding. -/
theorem confirmation_only_when_idle_witness :
    false = false ∧ false = false ∧
    (on_participant_attributes_changed [⟨"v1", "A", some (Json.arr []), some "tl"⟩]
      false false ⟨VoiceSetting.preset "x", "m", "l"⟩ [("voice", "v1")]
      ⟨ParticipantKind.standard, "u", [("voice", "v1")]⟩).scheduled =
      [confirmationUtterance] ∧
    ∃ (vid : String) (v : Voice) (emb : Json),
      (Participant.mk ParticipantKind.standard "u" [("voice", "v1")]).attributes.lookup "voice" =
        some vid ∧
      List.find? (fun voice : Voice => voice.id == vid)
        [⟨"v1", "A", some (Json.arr []), some "tl"⟩] = some v ∧
      v.embedding = some emb ∧
      (on_participant_attributes_changed [⟨"v1", "A", some (Json.arr []), some "tl"⟩]
        false false ⟨VoiceSetting.preset "x", "m", "l"⟩ [("voice", "v1")]
        ⟨ParticipantKind.standard, "u", [("voice", "v1")]⟩).opts.voice =
        VoiceSetting.embedding emb :=
  confirmation_only_when_idle [⟨"v1", "A", some (Json.arr []), some "tl"⟩] false false
    ⟨VoiceSetting.preset "x", "m", "l"⟩ [("voice", "v1")]
    ⟨ParticipantKind.standard, "u", [("voice", "v1")]⟩
    (by simp [on_participant_attributes_changed, confirmationUtterance])

/-- Claim C9: a voice-change event whose participant has a missing or
empty `"voice"` attribute value is a no-op apart from the info log: no
warning, nothing scheduled, options unchanged, and the outcome does not
depend on the catalog at all. -/
theorem empty_voice_request_noop (catalog : List Voice) (u a : Bool) (tts : TTSOpts)
    (changed : List (String × String)) (p : Participant)
    (hk : p.kind = ParticipantKind.standard)
    (hc : (changed.lookup "voice").isSome = true)
    (hv : p.attributes.lookup "voice" = none ∨ p.attributes.lookup "voice" = some "") :
    (on_participant_attributes_changed catalog u a tts changed p).opts = tts ∧
    (on_participant_attributes_changed catalog u a tts changed p).warnings = [] ∧
    (on_participant_attributes_changed catalog u a tts changed p).scheduled = [] ∧
    ∀ catalog2 : List Voice,
      on_participant_attributes_changed catalog2 u a tts changed p =
        on_participant_attributes_changed catalog u a tts changed p := by
  rcases hv with hv | hv <;>
    refine ⟨?_, ?_, ?_, fun catalog2 => ?_⟩ <;>
      simp [on_participant_attributes_changed, hk, hc, hv]

/-- Witness for `empty_voice_request_noop`: an empty requested identifier
against a one-entry catalog. -/
theorem empty_voice_request_noop_witness :
    (on_participant_attributes_changed [⟨"v1", "A", some (Json.arr []), none⟩] false false
      ⟨VoiceSetting.preset "x", "m", "l"⟩ [("voice", "")]
      ⟨ParticipantKind.standard, "u", [("voice", "")]⟩).opts =
      ⟨VoiceSetting.preset "x", "m", "l"⟩ ∧
    (on_participant_attributes_changed [⟨"v1", "A", some (Json.arr []), none⟩] false false
      ⟨VoiceSetting.preset "x", "m", "l"⟩ [("voice", "")]
      ⟨ParticipantKind.standard, "u", [("voice", "")]⟩).warnings = [] ∧
    (on_participant_attributes_changed [⟨"v1", "A", some (Json.arr []), none⟩] false false
      ⟨VoiceSetting.preset "x", "m", "l"⟩ [("voice", "")]
      ⟨ParticipantKind.standard, "u", [("voice", "")]⟩).scheduled = [] ∧
    ∀ catalog2 : List Voice,
      on_participant_attributes_changed catalog2 false false
        ⟨VoiceSetting.preset "x", "m", "l"⟩ [("voice", "")]
        ⟨ParticipantKind.standard, "u", [("voice", "")]⟩ =
      on_participant_attributes_changed [⟨"v1", "A", some (Json.arr []), none⟩] false false
        ⟨VoiceSetting.preset "x", "m", "l"⟩ [("voice", "")]
        ⟨ParticipantKind.standard, "u", [("voice", "")]⟩ :=
  empty_voice_request_noop [⟨"v1", "A", some (Json.arr []), none⟩] false false
    ⟨VoiceSetting.preset "x", "m", "l"⟩ [("voice", "")]
    ⟨ParticipantKind.standard, "u", [("voice", "")]⟩ rfl rfl (Or.inr rfl)

/-- Claim C10: a matching catalog entry without an `"embedding"` field
makes the handler a no-op beyond the info log: options unchanged, no
warning, nothing scheduled. -/
theorem missing_embedding_noop (catalog : List Voice) (u a : Bool) (tts : TTSOpts)
    (changed : List (String × String)) (p : Participant) (vid : String) (v : Voice)
    (hk : p.kind = ParticipantKind.standard)
    (hc : (changed.lookup "voice").isSome = true)
    (hv : p.attributes.lookup "voice" = some vid)
    (hne : vid ≠ "")
    (hf : catalog.find? (fun voice => voice.id == vid) = some v)
    (he : v.embedding = none) :
    (on_participant_attributes_changed catalog u a tts changed p).opts = tts ∧
    (on_participant_attributes_changed catalog u a tts changed p).warnings = [] ∧
    (on_participant_attributes_changed catalog u a tts changed p).scheduled = [] := by
  refine ⟨?_, ?_, ?_⟩ <;>
    simp [on_participant_attributes_changed, hk, hc, hv, hne, hf, he]

/-- Witness for `missing_embedding_noop`: an embedding-less entry matched
with both flags clear. -/
theorem missing_embedding_noop_witness :
    (on_participant_attributes_changed [⟨"v1", "A", none, some "fr"⟩] false false
      ⟨VoiceSetting.preset "x", "m", "l"⟩ [("voice", "v1")]
      ⟨ParticipantKind.standard, "u", [("voice", "v1")]⟩).opts =
      ⟨VoiceSetting.preset "x", "m", "l"⟩ ∧
    (on_participant_attributes_changed [⟨"v1", "A", none, some "fr"⟩] false false
      ⟨VoiceSetting.preset "x", "m", "l"⟩ [("voice", "v1")]
      ⟨ParticipantKind.standard, "u", [("voice", "v1")]⟩).warnings = [] ∧
    (on_participant_attributes_changed [⟨"v1", "A", none, some "fr"⟩] false false
      ⟨VoiceSetting.preset "x", "m", "l"⟩ [("voice", "v1")]
      ⟨ParticipantKind.standard, "u", [("voice", "v1")]⟩).scheduled = [] :=
  missing_embedding_noop [⟨"v1", "A", none, some "fr"⟩] false false
    ⟨VoiceSetting.preset "x", "m", "l"⟩ [("voice", "v1")]
    ⟨ParticipantKind.standard, "u", [("voice", "v1")]⟩ "v1"
    ⟨"v1", "A", none, some "fr"⟩ rfl rfl rfl (by decide) rfl rfl

end VoiceAgent
